import Mathlib

/-!
Verification development for `packages/puppeteer-core/src/common/Frame.ts`.

The definitions below are a shallow embedding of the `Frame` class: its mutable
fields become a `FrameState` record, its state-mutating methods become pure
state transformers, and its asynchronous navigation driver (`goto`,
`waitForNavigation`) is modelled as a function of an environment describing the
settled values of the promises it races.  JavaScript string truthiness (`!!s`,
`s || ''`) is modelled explicitly.
-/

namespace Puppeteer

/-- JavaScript truthiness of a string: `!!s` is `true` exactly when `s` is
non-empty. -/
def truthyStr (s : String) : Bool :=
  if s = "" then false else true

/-- JavaScript truthiness of a `string | undefined` value: `undefined` and the
empty string are falsy. -/
def truthyOptStr : Option String → Bool
  | some s => truthyStr s
  | none => false

/-- The JavaScript expression `x || ''` for `x : string | undefined`. -/
def jsOrEmpty : Option String → String
  | some s => if truthyStr s then s else ""
  | none => ""

/-- The numeric coercion `+b` of a boolean, as in the source's
`+!!options.url + +!!path + +!!content`. -/
def boolNat (b : Bool) : Nat :=
  if b then 1 else 0

/-- Insertion into a JavaScript `Set<string>`: insertion ordered, duplicates
ignored. -/
def setAdd (s : List String) (x : String) : List String :=
  if x ∈ s then s else s ++ [x]

/-- The source's `path.replace(/\n/g, '')`: remove every newline character. -/
def stripNewlines (s : String) : String :=
  String.mk (s.data.filter fun c => c ≠ '\n')

/-- Mirror of the mutable state of `class Frame`.  The private fields `#url`
and `#detached` are `url` and `detached`; the internal fields keep their
source names.  The two world-context fields stand for the execution contexts
of the frame's two isolated worlds.  Modelled from the spec: `IsolatedWorld`
is not part of the source file; per the spec an isolated world owns at most
one live execution context, and `none` means no context is live. -/
structure FrameState where
  url : String := ""
  detached : Bool := false
  _id : String := ""
  _parentId : Option String := none
  _loaderId : String := ""
  _name : Option String := none
  _hasStartedLoading : Bool := false
  _lifecycleEvents : List String := []
  mainWorldContext : Option Nat := none
  puppeteerWorldContext : Option Nat := none
deriving DecidableEq

/-- The fields of the `Protocol.Page.Frame` payload read by
`Frame._navigated` (the protocol declares `name` and `urlFragment`
optional). -/
structure FramePayload where
  id : String := ""
  loaderId : String := ""
  name : Option String := none
  url : String := ""
  urlFragment : Option String := none
deriving DecidableEq

namespace Frame

/-- `name(): string` returns `this._name || ''`. -/
def name (s : FrameState) : String :=
  jsOrEmpty s._name

/-- `isDetached(): boolean` returns the private `#detached` flag. -/
def isDetached (s : FrameState) : Bool :=
  s.detached

/-- `updateClient(client)` replaces both isolated worlds with freshly
constructed ones, which own no live execution context yet. -/
def updateClient (s : FrameState) : FrameState :=
  { s with mainWorldContext := none, puppeteerWorldContext := none }

/-- `_navigated(framePayload)` stores the payload's declared name and sets the
URL to the payload URL concatenated with `framePayload.urlFragment || ''`. -/
def _navigated (s : FrameState) (p : FramePayload) : FrameState :=
  { s with _name := p.name, url := p.url ++ jsOrEmpty p.urlFragment }

/-- `_navigatedWithinDocument(url)` only replaces the URL. -/
def _navigatedWithinDocument (s : FrameState) (url : String) : FrameState :=
  { s with url := url }

/-- `_onLifecycleEvent(loaderId, name)`: on `"init"` the loader id is replaced
and the lifecycle-event set cleared; in every case the event name is then
added to the set. -/
def _onLifecycleEvent (s : FrameState) (loaderId eventName : String) : FrameState :=
  let s :=
    if eventName = "init" then
      { s with _loaderId := loaderId, _lifecycleEvents := [] }
    else s
  { s with _lifecycleEvents := setAdd s._lifecycleEvents eventName }

/-- `_onLoadingStopped()` synthesizes `DOMContentLoaded` and `load` into the
lifecycle-event set. -/
def _onLoadingStopped (s : FrameState) : FrameState :=
  { s with
    _lifecycleEvents := setAdd (setAdd s._lifecycleEvents "DOMContentLoaded") "load" }

/-- `_onLoadingStarted()` sets the has-started-loading flag. -/
def _onLoadingStarted (s : FrameState) : FrameState :=
  { s with _hasStartedLoading := true }

/-- `_detach()` sets the detached flag and detaches both isolated worlds.
Modelled from the spec: `IsolatedWorld._detach` is outside the source file;
per the spec, detaching a world clears its live execution context
permanently. -/
def _detach (s : FrameState) : FrameState :=
  { s with detached := true, mainWorldContext := none, puppeteerWorldContext := none }

end Frame

/-- The state-mutating operations of `class Frame`, as an enumerable type so
that properties over arbitrary operation sequences can be stated. -/
inductive FrameOp where
  | navigated (p : FramePayload)
  | navigatedWithinDocument (url : String)
  | onLifecycleEvent (loaderId eventName : String)
  | onLoadingStopped
  | onLoadingStarted
  | detach
  | updateClient
deriving DecidableEq

/-- Interpretation of a `FrameOp` as the corresponding method of `Frame`. -/
def FrameOp.apply : FrameOp → FrameState → FrameState
  | .navigated p, s => Frame._navigated s p
  | .navigatedWithinDocument u, s => Frame._navigatedWithinDocument s u
  | .onLifecycleEvent l n, s => Frame._onLifecycleEvent s l n
  | .onLoadingStopped, s => Frame._onLoadingStopped s
  | .onLoadingStarted, s => Frame._onLoadingStarted s
  | .detach, s => Frame._detach s
  | .updateClient, s => Frame.updateClient s

/-- Sequential application of a list of frame operations. -/
def FrameOp.applyAll (ops : List FrameOp) (s : FrameState) : FrameState :=
  ops.foldl (fun acc op => FrameOp.apply op acc) s

/-- Whether an operation writes the stored declared name (`this._name`);
only `_navigated` does. -/
def FrameOp.changesDeclaredName : FrameOp → Bool
  | .navigated _ => true
  | _ => false

/-- Options of `addScriptTag` (`FrameAddScriptTagOptions`); every field is
optional in the source. -/
structure FrameAddScriptTagOptions where
  url : Option String := none
  path : Option String := none
  content : Option String := none
  type : Option String := none
  id : Option String := none
deriving DecidableEq

/-- Options of `addStyleTag` (`FrameAddStyleTagOptions`). -/
structure FrameAddStyleTagOptions where
  url : Option String := none
  path : Option String := none
  content : Option String := none
deriving DecidableEq

/-- Errors surfaced by the tag-injection methods before any remote evaluation:
the invalid-argument error thrown by the exactly-one-source guard, and
failures propagated from reading a file at `path`. -/
inductive TagError where
  | invalidArgument
  | fsFailure (message : String)
deriving DecidableEq

/-- The message of the invalid-argument error in the source. -/
def invalidArgumentMessage : String :=
  "Exactly one of `url`, `path`, or `content` must be specified."

/-- The guard expression `+!!options.url + +!!path + +!!content` shared by
`addScriptTag` and `addStyleTag` (the `content` argument is already defaulted
to the empty string). -/
def tagSourceCount (url path : Option String) (content : String) : Nat :=
  boolNat (truthyOptStr url) + boolNat (truthyOptStr path) + boolNat (truthyStr content)

/-- The argument record `addScriptTag` hands to the remote evaluation
(`\x7b...options, type, content\x7d` restricted to the fields the injected
function reads). -/
structure RemoteScriptCall where
  url : Option String := none
  id : Option String := none
  type : String := ""
  content : String := ""
deriving DecidableEq

/-- `addScriptTag(options)`: validates that exactly one truthy source among
`url`, `path`, `content` was given, reads the file when `path` is set
(appending the sourceURL marker), and only then issues the remote evaluation,
here represented by the returned `RemoteScriptCall`.  File-system access is
abstracted by the `readFile` argument. -/
def Frame.addScriptTag (readFile : String → Except String String)
    (options : FrameAddScriptTagOptions) : Except TagError RemoteScriptCall :=
  let content := options.content.getD ""
  let path := options.path
  if tagSourceCount options.url path content ≠ 1 then
    Except.error TagError.invalidArgument
  else
    let contentResult : Except TagError String :=
      match path with
      | some p =>
        match readFile p with
        | Except.ok fileData =>
          Except.ok (fileData ++ "//# sourceURL=" ++ stripNewlines p)
        | Except.error e => Except.error (TagError.fsFailure e)
      | none => Except.ok content
    match contentResult with
    | Except.error e => Except.error e
    | Except.ok content =>
      Except.ok
        { url := options.url, id := options.id,
          type := options.type.getD "text/javascript", content := content }

/-- `addStyleTag(options)`: same exactly-one-source validation; when `path` is
set the file content (with the style sourceURL marker appended) is written
back into `options.content`, and the possibly-updated options record is what
the remote evaluation receives. -/
def Frame.addStyleTag (readFile : String → Except String String)
    (options : FrameAddStyleTagOptions) : Except TagError FrameAddStyleTagOptions :=
  let content := options.content.getD ""
  let path := options.path
  if tagSourceCount options.url path content ≠ 1 then
    Except.error TagError.invalidArgument
  else
    match path with
    | some p =>
      match readFile p with
      | Except.ok fileData =>
        Except.ok
          { options with
            content := some (fileData ++ "/" ++ "*# sourceURL=" ++ stripNewlines p ++ "*" ++ "/") }
      | Except.error e => Except.error (TagError.fsFailure e)
    | none => Except.ok options

/-- Result of the `Page.navigate` command: `loaderId` and `errorText` are both
optional in the protocol. -/
structure NavigateResponse where
  frameId : String := ""
  loaderId : Option String := none
  errorText : Option String := none
deriving DecidableEq

/-- The inner `navigate` helper of `Frame.goto`.  `sendResult` is the outcome
of the `Page.navigate` command (a thrown error is `Except.error`).  The first
component is the error the helper returns (`null` is `none`); the second is
the `ensureNewDocumentNavigation` flag it assigns, `!!response.loaderId`. -/
def navigate (url : String) (sendResult : Except String NavigateResponse) :
    Option String × Bool :=
  match sendResult with
  | Except.ok response =>
    let ensureNewDocumentNavigation := truthyOptStr response.loaderId
    if response.errorText = some "net::ERR_HTTP_RESPONSE_CODE_FAILURE" then
      (none, ensureNewDocumentNavigation)
    else if truthyOptStr response.errorText then
      (some (response.errorText.getD "" ++ " at " ++ url), ensureNewDocumentNavigation)
    else
      (none, ensureNewDocumentNavigation)
  | Except.error e => (some e, false)

/-- The watcher promises a navigation call can await. -/
inductive WatcherPath where
  | timeoutOrTermination
  | newDocumentNavigation
  | sameDocumentNavigation
deriving DecidableEq

/-- The promises `goto` races after the navigate command succeeded:
`timeoutOrTerminationPromise` together with exactly one of the two
navigation promises, chosen by `ensureNewDocumentNavigation`. -/
def gotoSecondRacePaths (ensureNewDocumentNavigation : Bool) : List WatcherPath :=
  [WatcherPath.timeoutOrTermination,
   if ensureNewDocumentNavigation then WatcherPath.newDocumentNavigation
   else WatcherPath.sameDocumentNavigation]

/-- The three promises `waitForNavigation` races. -/
def waitForNavigationRacePaths : List WatcherPath :=
  [WatcherPath.timeoutOrTermination, WatcherPath.sameDocumentNavigation,
   WatcherPath.newDocumentNavigation]

/-- Navigation response payload (only its identity matters here). -/
structure HTTPResponse where
  status : Nat := 200
deriving DecidableEq

/-- Which side of the first race in `goto` settles first: the navigate
command, or the watcher's timeout/termination promise (which settles with an
error). -/
inductive Race1Outcome where
  | navigateSettled
  | watcherSettled (error : String)
deriving DecidableEq

/-- Environment describing the settled values of everything `goto` awaits. -/
structure GotoEnv where
  url : String := ""
  sendResult : Except String NavigateResponse := Except.ok {}
  race1 : Race1Outcome := Race1Outcome.navigateSettled
  race2Error : Option String := none
  navigationResponse : Except String (Option HTTPResponse) := Except.ok none

/-- Observable watcher effects of a navigation call. -/
inductive WatcherEvent where
  | dispose
deriving DecidableEq

/-- Semantics of the source's `try ... finally watcher.dispose()`: whatever
the body's outcome (return or throw), `dispose` runs before the call
completes. -/
def finallyDispose (body : Except String (Option HTTPResponse)) :
    Except String (Option HTTPResponse) × List WatcherEvent :=
  (body, [WatcherEvent.dispose])

/-- Outcome of the first `Promise.race` in `goto`: the error (if any) and the
`ensureNewDocumentNavigation` flag.  When the watcher settles first, the
navigate command has not resolved, so the flag is still `false`. -/
def Frame.gotoFirstRace (env : GotoEnv) : Option String × Bool :=
  match env.race1 with
  | Race1Outcome.navigateSettled => navigate env.url env.sendResult
  | Race1Outcome.watcherSettled e => (some e, false)

/-- The set of watcher promises `goto` races after an error-free command. -/
def Frame.gotoSecondRace (env : GotoEnv) : List WatcherPath :=
  gotoSecondRacePaths (Frame.gotoFirstRace env).2

/-- `goto(url, options)` reduced to its promise plumbing: race the command
against timeout/termination; if no error, race the watcher paths; then throw
the error or return the navigation response, disposing the watcher in a
`finally` either way. -/
def Frame.goto (env : GotoEnv) : Except String (Option HTTPResponse) × List WatcherEvent :=
  let error :=
    match (Frame.gotoFirstRace env).1 with
    | none => env.race2Error
    | some e => some e
  finallyDispose
    (match error with
     | some e => Except.error e
     | none => env.navigationResponse)

/-- Environment for `waitForNavigation`: the settled value of its three-way
race and the watcher's navigation response. -/
structure WaitForNavigationEnv where
  raceError : Option String := none
  navigationResponse : Except String (Option HTTPResponse) := Except.ok none

/-- `waitForNavigation(options)` reduced to its promise plumbing, with the
same `try ... finally watcher.dispose()` shape as `goto`. -/
def Frame.waitForNavigation (env : WaitForNavigationEnv) :
    Except String (Option HTTPResponse) × List WatcherEvent :=
  finallyDispose
    (match env.raceError with
     | some e => Except.error e
     | none => env.navigationResponse)

/-- The selector string `waitForXPath` passes to `waitForSelector`: the
expression gets a leading dot when it starts with `//`, then the `xpath/`
prefix marker is prepended. -/
def Frame.waitForXPathSelector (xpath : String) : String :=
  let xpath := if xpath.startsWith "//" then "." ++ xpath else xpath
  "xpath/" ++ xpath

/-- Normalization as worded by the claim: prepend a dot exactly when the
expression starts with `//`, leave it unchanged otherwise. -/
def specXPathNormalize (expression : String) : String :=
  if expression.startsWith "//" then "." ++ expression else expression

/-- A concrete frame mid-navigation, used by counterexamples and witnesses. -/
def sampleFrame : FrameState :=
  { _id := "frame-1", _parentId := none, url := "https://example.com/",
    _loaderId := "loader-0", _name := some "main", _hasStartedLoading := true,
    _lifecycleEvents := ["init", "DOMContentLoaded", "load"], detached := false,
    mainWorldContext := some 1, puppeteerWorldContext := some 2 }

/-- A frame whose declared name is the empty string. -/
def emptyNameFrame : FrameState :=
  { _id := "frame-42", _name := some "", url := "https://example.com/" }

/-- A navigation payload with a non-empty declared name. -/
def payloadNamed : FramePayload :=
  { id := "frame-1", loaderId := "loader-1", name := some "main",
    url := "https://example.com/page", urlFragment := none }

/-- A navigation payload with an empty declared name. -/
def payloadEmptyName : FramePayload :=
  { id := "frame-1", loaderId := "loader-1", name := some "",
    url := "https://example.com/page", urlFragment := some "#top" }

/-- A file-system stub on which every read fails. -/
def fsStub : String → Except String String :=
  fun _ => Except.error "ENOENT"

/-- A `goto` environment whose command succeeded without assigning a loader
id. -/
def c2Env : GotoEnv :=
  { url := "https://example.com/",
    sendResult := Except.ok { frameId := "frame-1" },
    race1 := Race1Outcome.navigateSettled, race2Error := none,
    navigationResponse := Except.ok none }

/-- A `goto` environment whose command succeeded and assigned a loader id. -/
def c2LoaderEnv : GotoEnv :=
  { url := "https://example.com/",
    sendResult := Except.ok { frameId := "frame-1", loaderId := some "loader-7" },
    race1 := Race1Outcome.navigateSettled }

/-- A command response carrying the benign non-OK-HTTP-status error text. -/
def httpFailResp : NavigateResponse :=
  { frameId := "frame-1", loaderId := some "loader-7",
    errorText := some "net::ERR_HTTP_RESPONSE_CODE_FAILURE" }

/-- A command response carrying a genuine error text. -/
def dnsFailResp : NavigateResponse :=
  { frameId := "frame-1", loaderId := some "loader-7",
    errorText := some "net::ERR_NAME_NOT_RESOLVED" }

/-- A `goto` environment for the benign non-OK-HTTP-status case. -/
def c3HttpEnv : GotoEnv :=
  { url := "https://example.com/", sendResult := Except.ok httpFailResp }

/-- A `goto` environment for the genuine-error case. -/
def c3DnsEnv : GotoEnv :=
  { url := "https://example.com/", sendResult := Except.ok dnsFailResp }

/-- Helper: every frame operation preserves an already-set detached flag. -/
theorem apply_detached_monotonic (op : FrameOp) (s : FrameState)
    (h : s.detached = true) : (FrameOp.apply op s).detached = true := by
  cases op <;>
    simp_all [FrameOp.apply, Frame._navigated, Frame._navigatedWithinDocument,
      Frame._onLifecycleEvent, Frame._onLoadingStopped, Frame._onLoadingStarted,
      Frame._detach, Frame.updateClient]
  split <;> simp [h]

/-- Helper: the flag assigned by the `navigate` helper on a resolved command
is exactly the truthiness of the response's loader id. -/
theorem navigate_ok_snd (url : String) (resp : NavigateResponse) :
    (navigate url (Except.ok resp)).2 = truthyOptStr resp.loaderId := by
  unfold navigate
  dsimp only
  split_ifs <;> rfl

/-- Claim C1 (amended): `_onLifecycleEvent(loaderId, eventName)` with
`eventName = "init"` replaces the loader id and resets the lifecycle-event
set to contain exactly `"init"` (the cleared set immediately receives the
event name itself); with any other event name it adds the name to the set
unconditionally and leaves the loader id unchanged. -/
theorem onLifecycleEvent_effect (s : FrameState) (loaderId eventName : String) :
    Frame._onLifecycleEvent s loaderId eventName =
      if eventName = "init" then
        { s with _loaderId := loaderId, _lifecycleEvents := ["init"] }
      else
        { s with _lifecycleEvents := setAdd s._lifecycleEvents eventName } := by
  by_cases h : eventName = "init"
  · subst h
    simp [Frame._onLifecycleEvent, setAdd]
  · simp [Frame._onLifecycleEvent, h]

/-- Claim C1 counterexample: after `_onLifecycleEvent(loaderId, "init")` the
lifecycle-event set is not empty; it contains the event `"init"`. -/
theorem onLifecycleEvent_init_not_empty :
    (Frame._onLifecycleEvent sampleFrame "loader-1" "init")._lifecycleEvents = ["init"] ∧
    (Frame._onLifecycleEvent sampleFrame "loader-1" "init")._lifecycleEvents ≠ [] := by
  decide

/-- Claim C2 counterexample: a `goto` whose navigate command completed without
error and without a loader id does not accept the new-document resolution
path; its second race awaits only timeout/termination and the same-document
path. -/
theorem goto_no_loader_not_either_path :
    (Frame.gotoFirstRace c2Env).1 = none ∧
    WatcherPath.sameDocumentNavigation ∈ Frame.gotoSecondRace c2Env ∧
    WatcherPath.newDocumentNavigation ∉ Frame.gotoSecondRace c2Env := by
  decide

/-- Claim C2 (amended): after an error-free navigate command, `goto` races
timeout/termination together with exactly one navigation path of the watcher:
the new-document path when the response carried a (truthy) loader id, and
only the same-document path otherwise. -/
theorem goto_second_race_selection (env : GotoEnv) (resp : NavigateResponse)
    (h1 : env.race1 = Race1Outcome.navigateSettled)
    (h2 : env.sendResult = Except.ok resp)
    (h3 : (Frame.gotoFirstRace env).1 = none) :
    Frame.gotoSecondRace env =
      if truthyOptStr resp.loaderId then
        [WatcherPath.timeoutOrTermination, WatcherPath.newDocumentNavigation]
      else
        [WatcherPath.timeoutOrTermination, WatcherPath.sameDocumentNavigation] := by
  have hsnd : (Frame.gotoFirstRace env).2 = truthyOptStr resp.loaderId := by
    simp [Frame.gotoFirstRace, h1, h2, navigate_ok_snd]
  cases hb : truthyOptStr resp.loaderId <;>
    simp [Frame.gotoSecondRace, gotoSecondRacePaths, hsnd, hb]

/-- Claim C2 witness: in the environment whose command assigned loader id
`loader-7`, the second race is timeout/termination plus the new-document
path. -/
theorem goto_second_race_selection_witness :
    Frame.gotoSecondRace c2LoaderEnv =
      if truthyOptStr (some "loader-7") then
        [WatcherPath.timeoutOrTermination, WatcherPath.newDocumentNavigation]
      else
        [WatcherPath.timeoutOrTermination, WatcherPath.sameDocumentNavigation] :=
  goto_second_race_selection c2LoaderEnv
    { frameId := "frame-1", loaderId := some "loader-7" } rfl rfl (by decide)

/-- Claim C3: when the navigate command's response carries the specific
non-OK-HTTP-status error text, `goto` does not treat the response as an error
(the first race yields no error, so the navigation proceeds); for any other
non-empty error text, `goto` throws an error containing that text and the
target URL. -/
theorem goto_errorText_handling (env : GotoEnv) (resp : NavigateResponse)
    (h1 : env.race1 = Race1Outcome.navigateSettled)
    (h2 : env.sendResult = Except.ok resp) :
    (resp.errorText = some "net::ERR_HTTP_RESPONSE_CODE_FAILURE" →
       (Frame.gotoFirstRace env).1 = none) ∧
    (∀ t, resp.errorText = some t → t ≠ "" →
       t ≠ "net::ERR_HTTP_RESPONSE_CODE_FAILURE" →
       (Frame.goto env).1 = Except.error (t ++ " at " ++ env.url)) := by
  constructor
  · intro h
    simp [Frame.gotoFirstRace, h1, h2, navigate, h]
  · intro t ht hne hdiff
    have hfst : (Frame.gotoFirstRace env).1 = some (t ++ " at " ++ env.url) := by
      simp [Frame.gotoFirstRace, h1, h2, navigate, ht, truthyOptStr, truthyStr,
        hne, hdiff]
    simp [Frame.goto, hfst, finallyDispose]

/-- Claim C3 witness: the benign error text is swallowed, while a DNS failure
is surfaced with the target URL appended. -/
theorem goto_errorText_handling_witness :
    (Frame.gotoFirstRace c3HttpEnv).1 = none ∧
    (Frame.goto c3DnsEnv).1 =
      Except.error ("net::ERR_NAME_NOT_RESOLVED" ++ " at " ++ "https://example.com/") :=
  ⟨(goto_errorText_handling c3HttpEnv httpFailResp rfl rfl).1 rfl,
   (goto_errorText_handling c3DnsEnv dnsFailResp rfl rfl).2
     "net::ERR_NAME_NOT_RESOLVED" rfl (by decide) (by decide)⟩

/-- Claim C4: `addScriptTag`/`addStyleTag` throw the invalid-argument error
exactly when the number of options among `url`, `path`, `content` that are
set (to a truthy, i.e. non-empty, value) differs from one; the error result
carries no remote call, so it is raised before any remote evaluation; when
exactly one source is set the validation never produces that error. -/
theorem addTag_exactly_one_source (readFile : String → Except String String)
    (so : FrameAddScriptTagOptions) (sto : FrameAddStyleTagOptions) :
    (Frame.addScriptTag readFile so = Except.error TagError.invalidArgument ↔
       tagSourceCount so.url so.path (so.content.getD "") ≠ 1) ∧
    (Frame.addStyleTag readFile sto = Except.error TagError.invalidArgument ↔
       tagSourceCount sto.url sto.path (sto.content.getD "") ≠ 1) := by
  constructor
  · unfold Frame.addScriptTag
    by_cases h : tagSourceCount so.url so.path (so.content.getD "") ≠ 1
    · simp [h]
    · simp only [h, if_false, iff_false]
      cases hp : so.path with
      | none => simp
      | some p => cases hr : readFile p <;> simp [hr]
  · unfold Frame.addStyleTag
    by_cases h : tagSourceCount sto.url sto.path (sto.content.getD "") ≠ 1
    · simp [h]
    · simp only [h, if_false, iff_false]
      cases hp : sto.path with
      | none => simp
      | some p => cases hr : readFile p <;> simp [hr]

/-- Claim C5 counterexample: on a frame whose declared name is the empty
string, `name()` returns the empty string, not the frame's identifier. -/
theorem name_no_identifier_fallback :
    emptyNameFrame._name = some "" ∧
    emptyNameFrame._id = "frame-42" ∧
    Frame.name emptyNameFrame = "" ∧
    Frame.name emptyNameFrame ≠ emptyNameFrame._id := by
  decide

/-- Claim C5 (amended): `name()` returns the declared name recorded at the
most recent navigation; when that name is empty or absent it returns the
empty string (not the frame's identifier); and no operation other than
`_navigated` changes the stored declared name. -/
theorem name_empty_fallback (s : FrameState) (p : FramePayload) :
    (∀ n, p.name = some n → n ≠ "" → Frame.name (Frame._navigated s p) = n) ∧
    ((p.name = some "" ∨ p.name = none) → Frame.name (Frame._navigated s p) = "") ∧
    (∀ op : FrameOp, FrameOp.changesDeclaredName op = false →
       (FrameOp.apply op s)._name = s._name) := by
  refine ⟨?_, ?_, ?_⟩
  · intro n hn hne
    simp [Frame.name, Frame._navigated, hn, jsOrEmpty, truthyStr, hne]
  · rintro (h | h) <;> simp [Frame.name, Frame._navigated, h, jsOrEmpty, truthyStr]
  · intro op hop
    cases op <;>
      simp_all [FrameOp.apply, FrameOp.changesDeclaredName,
        Frame._navigatedWithinDocument, Frame._onLifecycleEvent,
        Frame._onLoadingStopped, Frame._onLoadingStarted, Frame._detach,
        Frame.updateClient]
    split <;> rfl

/-- Claim C5 witness: a navigation with name `main` is reported as `main`, a
navigation with an empty name is reported as the empty string, and
`_onLoadingStarted` leaves the stored declared name alone. -/
theorem name_empty_fallback_witness :
    Frame.name (Frame._navigated sampleFrame payloadNamed) = "main" ∧
    Frame.name (Frame._navigated sampleFrame payloadEmptyName) = "" ∧
    (FrameOp.apply FrameOp.onLoadingStarted sampleFrame)._name = sampleFrame._name :=
  ⟨(name_empty_fallback sampleFrame payloadNamed).1 "main" rfl (by decide),
   (name_empty_fallback sampleFrame payloadEmptyName).2.1 (Or.inl rfl),
   (name_empty_fallback sampleFrame payloadEmptyName).2.2 FrameOp.onLoadingStarted rfl⟩

/-- Claim C6: once `_detach()` ran, `isDetached()` stays `true` under every
sequence of frame operations, and `_detach` clears the execution contexts of
both isolated worlds. -/
theorem detach_permanent (s : FrameState) (ops : List FrameOp) :
    Frame.isDetached (FrameOp.applyAll ops (Frame._detach s)) = true ∧
    (Frame._detach s).mainWorldContext = none ∧
    (Frame._detach s).puppeteerWorldContext = none := by
  refine ⟨?_, rfl, rfl⟩
  have hbase : (Frame._detach s).detached = true := rfl
  show (FrameOp.applyAll ops (Frame._detach s)).detached = true
  generalize Frame._detach s = t at hbase ⊢
  induction ops generalizing t with
  | nil => exact hbase
  | cons op rest ih => exact ih _ (apply_detached_monotonic op t hbase)

/-- Claim C7: `_navigated(payload)` sets the URL to the payload URL
concatenated with the fragment (empty when absent) and stores the payload's
declared name, leaving the lifecycle-event set, loader id, has-started-loading
flag, and detached flag unchanged. -/
theorem navigated_effect (s : FrameState) (p : FramePayload) :
    (Frame._navigated s p).url = p.url ++ p.urlFragment.getD "" ∧
    (Frame._navigated s p)._name = p.name ∧
    (Frame._navigated s p)._lifecycleEvents = s._lifecycleEvents ∧
    (Frame._navigated s p)._loaderId = s._loaderId ∧
    (Frame._navigated s p)._hasStartedLoading = s._hasStartedLoading ∧
    (Frame._navigated s p).detached = s.detached := by
  refine ⟨?_, rfl, rfl, rfl, rfl, rfl⟩
  have hfrag : jsOrEmpty p.urlFragment = p.urlFragment.getD "" := by
    cases p.urlFragment with
    | none => rfl
    | some f =>
      by_cases hf : f = "" <;> simp [jsOrEmpty, truthyStr, hf]
  simp [Frame._navigated, hfrag]

/-- Claim C8: both `goto` and `waitForNavigation` dispose their lifecycle
watcher on every exit path, whether the body returns a response, returns
null, or throws. -/
theorem watcher_disposed_on_every_path (env : GotoEnv) (wenv : WaitForNavigationEnv) :
    WatcherEvent.dispose ∈ (Frame.goto env).2 ∧
    WatcherEvent.dispose ∈ (Frame.waitForNavigation wenv).2 := by
  constructor <;> simp [Frame.goto, Frame.waitForNavigation, finallyDispose]

/-- Claim C9: an option supplied as the empty string counts as not set in the
exactly-one-source validation: supplying only `content = ""` throws the
invalid-argument error, while a non-empty `url` together with `content = ""`
passes validation and reaches the remote evaluation. -/
theorem addTag_empty_string_not_set (readFile : String → Except String String)
    (u : String) (hu : u ≠ "") :
    Frame.addScriptTag readFile { content := some "" } =
      Except.error TagError.invalidArgument ∧
    Frame.addScriptTag readFile { url := some u, content := some "" } =
      Except.ok { url := some u, id := none, type := "text/javascript", content := "" } ∧
    Frame.addStyleTag readFile { content := some "" } =
      Except.error TagError.invalidArgument ∧
    Frame.addStyleTag readFile { url := some u, content := some "" } =
      Except.ok { url := some u, path := none, content := some "" } := by
  refine ⟨rfl, ?_, rfl, ?_⟩
  · simp [Frame.addScriptTag, tagSourceCount, truthyOptStr, truthyStr, boolNat, hu]
  · simp [Frame.addStyleTag, tagSourceCount, truthyOptStr, truthyStr, boolNat, hu]

/-- Claim C9 witness: the empty-string cases at concrete URLs. -/
theorem addTag_empty_string_not_set_witness :
    Frame.addScriptTag fsStub { content := some "" } =
      Except.error TagError.invalidArgument ∧
    Frame.addScriptTag fsStub { url := some "https://example.com/app.js", content := some "" } =
      Except.ok { url := some "https://example.com/app.js", id := none,
                  type := "text/javascript", content := "" } ∧
    Frame.addStyleTag fsStub { content := some "" } =
      Except.error TagError.invalidArgument ∧
    Frame.addStyleTag fsStub { url := some "https://example.com/app.css", content := some "" } =
      Except.ok { url := some "https://example.com/app.css", path := none,
                  content := some "" } :=
  ⟨(addTag_empty_string_not_set fsStub "https://example.com/app.js" (by decide)).1,
   (addTag_empty_string_not_set fsStub "https://example.com/app.js" (by decide)).2.1,
   (addTag_empty_string_not_set fsStub "https://example.com/app.css" (by decide)).2.2.1,
   (addTag_empty_string_not_set fsStub "https://example.com/app.css" (by decide)).2.2.2⟩

/-- Claim C10: `waitForXPath` delegates to `waitForSelector` with the selector
`xpath/` followed by the normalized expression, where normalization prepends a
dot exactly when the expression starts with `//`. -/
theorem waitForXPath_delegation (expression : String) :
    Frame.waitForXPathSelector expression = "xpath/" ++ specXPathNormalize expression :=
  rfl

end Puppeteer
